import Mathlib

/-!
Verification model of the vision_demo gesture-log analysis pipeline
(`analyze_gesture_log.py` and `smart_analyzer.py`).

The log-record extraction grammar is embedded as a small backtracking
matcher specialized to the fixed pattern used by both scripts:
literal tokens, `\s+`, lazy `.*?` (with and without capture), greedy
`[\d.]+` captures and greedy `-?\d+` captures, with Python `re.search`
leftmost semantics (earliest start position, lazy groups try shortest
first, greedy groups try longest first, later choice points backtrack
first).  Numeric values are modelled as exact rationals.
-/

unseal Rat.add Rat.mul Rat.sub Rat.inv Rat.ofScientific

namespace VisionDemo

/-- Whitespace class of Python `\s` (ASCII part; the log lines at issue
contain only plain spaces). -/
def isWs (c : Char) : Bool :=
  c = ' ' || c = '\t' || c = '\n' || c = '\r' || c = '\x0b' || c = '\x0c'

/-- ASCII digit, the `\d` class as it applies to the log contents. -/
def isDigitCh (c : Char) : Bool := '0' ≤ c && c ≤ '9'

/-- The `[\d.]` character class of the numeric-field tokens. -/
def isNumCh (c : Char) : Bool := isDigitCh c || c = '.'

/-- Substring containment, Python's `pat in line`. -/
def hasSubstr (p s : List Char) : Bool :=
  (List.range (s.length + 1)).any (fun i => p.isPrefixOf (s.drop i))

/-- Tokens of the fixed extraction pattern. -/
inductive Tok
  | lit (p : List Char)   -- literal text
  | wsPlus                -- `\s+` (greedy)
  | lazyCap               -- `(.*?)` capturing, lazy, no newline
  | lazySkip              -- `.*?` non-capturing, lazy, no newline
  | numCap                -- `([\d.]+)` capturing, greedy
  | intCap                -- `(-?\d+)` capturing, greedy
deriving DecidableEq, Repr

/-- Backtracking matcher for a token list against a suffix of the line.
Choice points are explored in Python's order: lazy groups shortest
first, greedy groups longest first, with the rest of the pattern fully
explored before the local choice is revised.  Returns the list of
captured substrings of the first match found. -/
def matchToks : List Tok → List Char → Option (List (List Char))
  | [], _ => some []
  | .lit p :: ts, s =>
      if p.isPrefixOf s then matchToks ts (s.drop p.length) else none
  | .wsPlus :: ts, s =>
      let m := (s.takeWhile isWs).length
      (List.range m).findSome? (fun i => matchToks ts (s.drop (m - i)))
  | .lazyCap :: ts, s =>
      let limit := (s.takeWhile (fun c => c ≠ '\n')).length
      (List.range (limit + 1)).findSome? (fun k =>
        (matchToks ts (s.drop k)).map (fun cs => s.take k :: cs))
  | .lazySkip :: ts, s =>
      let limit := (s.takeWhile (fun c => c ≠ '\n')).length
      (List.range (limit + 1)).findSome? (fun k => matchToks ts (s.drop k))
  | .numCap :: ts, s =>
      let m := (s.takeWhile isNumCh).length
      (List.range m).findSome? (fun i =>
        let k := m - i
        (matchToks ts (s.drop k)).map (fun cs => s.take k :: cs))
  | .intCap :: ts, s =>
      match s with
      | '-' :: rest =>
          let m := (rest.takeWhile isDigitCh).length
          (List.range m).findSome? (fun i =>
            let k := m - i
            (matchToks ts (rest.drop k)).map (fun cs => ('-' :: rest.take k) :: cs))
      | _ =>
          let m := (s.takeWhile isDigitCh).length
          (List.range m).findSome? (fun i =>
            let k := m - i
            (matchToks ts (s.drop k)).map (fun cs => s.take k :: cs))

/-- `re.search`: try each start position from the left, first success wins. -/
def reSearch (ts : List Tok) (s : List Char) : Option (List (List Char)) :=
  (List.range (s.length + 1)).findSome? (fun i => matchToks ts (s.drop i))

/-- The channel marker that makes a line a candidate. -/
def markerStr : String := "[HandGestureDebug]"

/-- The fixed extraction pattern shared verbatim by `parse_log_file`
(analyze_gesture_log.py) and `SmartGestureAnalyzer._parse_log`
(smart_analyzer.py). -/
def gesturePat : List Tok :=
  [ .lit markerStr.data, .wsPlus,
    .lazyCap, .wsPlus, .lit ("✓").data,
    .lazySkip, .lit ("lenIdx:").data, .numCap,
    .lazySkip, .lit ("lenMid:").data, .numCap,
    .lazySkip, .lit ("lenRing:").data, .numCap,
    .lazySkip, .lit ("lenLit:").data, .numCap,
    .lazySkip, .lit ("gapIdxMid:").data, .numCap,
    .lazySkip, .lit ("gapThumbIdx:").data, .numCap,
    .lazySkip, .lit ("ratio idx/mid:").data, .numCap,
    .lazySkip, .lit ("ring/mid:").data, .numCap,
    .lazySkip, .lit ("lit/mid:").data, .numCap,
    .lazySkip, .lit ("score V/OK/Palm/Fist/Idx = ").data,
    .intCap, .lit ("/").data, .intCap, .lit ("/").data, .intCap,
    .lit ("/").data, .intCap, .lit ("/").data, .intCap ]

/-- The fifteen captured substrings of one structurally matched line,
in group order. -/
structure RawCaps where
  raw_label : List Char
  lenIdx : List Char
  lenMid : List Char
  lenRing : List Char
  lenLit : List Char
  gapIdxMid : List Char
  gapThumbIdx : List Char
  ratio_idx_mid : List Char
  ratio_ring_mid : List Char
  ratio_lit_mid : List Char
  score_v : List Char
  score_ok : List Char
  score_palm : List Char
  score_fist : List Char
  score_idx : List Char
deriving DecidableEq, Repr

/-- Structural match of one line against the full grammar. -/
def matchLine (s : List Char) : Option RawCaps :=
  match reSearch gesturePat s with
  | some [c1, c2, c3, c4, c5, c6, c7, c8, c9, c10, c11, c12, c13, c14, c15] =>
      some ⟨c1, c2, c3, c4, c5, c6, c7, c8, c9, c10, c11, c12, c13, c14, c15⟩
  | _ => none

def digitVal (c : Char) : ℕ := c.toNat - 48

def natOfDigits (l : List Char) : ℕ :=
  l.foldl (fun a c => 10 * a + digitVal c) 0

/-- Python `float()` on the tokens this grammar can capture (an optional
sign followed by digits and dots): it succeeds exactly when there is at
least one digit and at most one dot, and otherwise raises `ValueError`
(modelled as `none`).  Values are exact rationals. -/
def pyFloat (t : List Char) : Option ℚ :=
  let sgn : ℚ := match t with | '-' :: _ => -1 | _ => 1
  let u : List Char := match t with | '-' :: r => r | '+' :: r => r | _ => t
  if u.all isNumCh ∧ u.any isDigitCh ∧ u.count '.' ≤ 1 then
    let ip := u.takeWhile (fun c => c ≠ '.')
    let fp := (u.dropWhile (fun c => c ≠ '.')).drop 1
    some (sgn * ((natOfDigits ip : ℚ) + (natOfDigits fp : ℚ) / ((10 : ℚ) ^ fp.length)))
  else none

/-- One extracted record (`GestureSample`), field names as in the source
group names; all fifteen numeric fields are converted with `float()`. -/
structure GestureSample where
  raw_label : List Char
  lenIdx : ℚ
  lenMid : ℚ
  lenRing : ℚ
  lenLit : ℚ
  gapIdxMid : ℚ
  gapThumbIdx : ℚ
  ratio_idx_mid : ℚ
  ratio_ring_mid : ℚ
  ratio_lit_mid : ℚ
  score_v : ℚ
  score_ok : ℚ
  score_palm : ℚ
  score_fist : ℚ
  score_idx : ℚ
deriving DecidableEq, Repr

/-- Numeric conversion of all captured fields; `none` models the
uncaught `ValueError` raised by `float()` on an invalid token. -/
def convCaps (c : RawCaps) : Option GestureSample := do
  let lenIdx ← pyFloat c.lenIdx
  let lenMid ← pyFloat c.lenMid
  let lenRing ← pyFloat c.lenRing
  let lenLit ← pyFloat c.lenLit
  let gapIdxMid ← pyFloat c.gapIdxMid
  let gapThumbIdx ← pyFloat c.gapThumbIdx
  let r1 ← pyFloat c.ratio_idx_mid
  let r2 ← pyFloat c.ratio_ring_mid
  let r3 ← pyFloat c.ratio_lit_mid
  let sv ← pyFloat c.score_v
  let so ← pyFloat c.score_ok
  let sp ← pyFloat c.score_palm
  let sf ← pyFloat c.score_fist
  let si ← pyFloat c.score_idx
  some ⟨c.raw_label, lenIdx, lenMid, lenRing, lenLit, gapIdxMid, gapThumbIdx,
        r1, r2, r3, sv, so, sp, sf, si⟩

/-- Fatal extraction outcomes: `noData` is the explicit "no valid data"
`ValueError` raised when zero records were produced; `convErr n` is the
uncaught `float()` `ValueError` escaping from line `n`. -/
inductive ParseErr
  | noData
  | convErr (lineNo : ℕ)
deriving DecidableEq, Repr

/-- One per-line diagnostic printed by `parse_log_file` for a candidate
line that failed to match: line number and content stripped and
truncated to 100 characters. -/
structure ParseWarn where
  lineNo : ℕ
  content : List Char
deriving DecidableEq, Repr

def stripWs (l : List Char) : List Char :=
  ((l.dropWhile isWs).reverse.dropWhile isWs).reverse

def truncWarn (n : ℕ) (l : List Char) : ParseWarn :=
  ⟨n, (stripWs l).take 100⟩

/-- A line is a candidate iff it contains the channel marker. -/
def isCandidate (l : List Char) : Bool := hasSubstr markerStr.data l

/-- Sequential body of `parse_log_file` (analyze_gesture_log.py):
non-candidate lines are skipped silently, candidate lines that fail to
match are reported, a conversion failure aborts the whole run at that
line. -/
def parseGo : ℕ → List (List Char) → Except ParseErr (List GestureSample × List ParseWarn)
  | _, [] => Except.ok ([], [])
  | n, l :: ls =>
      if isCandidate l then
        match matchLine l with
        | none =>
            match parseGo (n + 1) ls with
            | Except.ok (rs, ws) => Except.ok (rs, truncWarn n l :: ws)
            | Except.error e => Except.error e
        | some caps =>
            match convCaps caps with
            | none => Except.error (ParseErr.convErr n)
            | some r =>
                match parseGo (n + 1) ls with
                | Except.ok (rs, ws) => Except.ok (r :: rs, ws)
                | Except.error e => Except.error e
      else parseGo (n + 1) ls

/-- `parse_log_file` of analyze_gesture_log.py over the file's lines:
raises the "no data" error iff zero records were extracted. -/
def parse_log_file (lines : List (List Char)) :
    Except ParseErr (List GestureSample × List ParseWarn) :=
  match parseGo 1 lines with
  | Except.ok (rs, ws) =>
      if rs = [] then Except.error ParseErr.noData else Except.ok (rs, ws)
  | Except.error e => Except.error e

/-- Sequential body of `SmartGestureAnalyzer._parse_log`
(smart_analyzer.py): identical grammar and conversion, but candidate
lines that fail to match are skipped with no per-line report. -/
def smartParseGo : ℕ → List (List Char) → Except ParseErr (List GestureSample)
  | _, [] => Except.ok []
  | n, l :: ls =>
      if isCandidate l then
        match matchLine l with
        | none => smartParseGo (n + 1) ls
        | some caps =>
            match convCaps caps with
            | none => Except.error (ParseErr.convErr n)
            | some r =>
                match smartParseGo (n + 1) ls with
                | Except.ok rs => Except.ok (r :: rs)
                | Except.error e => Except.error e
      else smartParseGo (n + 1) ls

/-- `SmartGestureAnalyzer._parse_log` over the file's lines. -/
def smart_parse_log (lines : List (List Char)) :
    Except ParseErr (List GestureSample) :=
  match smartParseGo 1 lines with
  | Except.ok rs =>
      if rs = [] then Except.error ParseErr.noData else Except.ok rs
  | Except.error e => Except.error e

/-! ### Feature derivation (`add_derived_features` / `_add_derived_features`) -/

/-- The five gesture names of the score tuple. -/
inductive Gesture | V | OK | Palm | Fist | Idx
deriving DecidableEq, Repr, Fintype

/-- Normalized label values: the five gestures plus Unknown. -/
inductive NLabel | V | OK | Palm | Fist | Idx | Unknown
deriving DecidableEq, Repr, Fintype

/-- Distance groups, ordered far < mid < near. -/
inductive Group | far | mid | near
deriving DecidableEq, Repr, Fintype

/-- Score column lookup, in the fixed column order
`score_v, score_ok, score_palm, score_fist, score_idx`. -/
def scoreOf (s : GestureSample) : Gesture → ℚ
  | .V => s.score_v
  | .OK => s.score_ok
  | .Palm => s.score_palm
  | .Fist => s.score_fist
  | .Idx => s.score_idx

/-- Position of a gesture in the fixed column order. -/
def gestureRank : Gesture → ℕ
  | .V => 0
  | .OK => 1
  | .Palm => 2
  | .Fist => 3
  | .Idx => 4

/-- `df[score_cols].idxmax(axis=1)` mapped through `score_map`: the
first column of maximal score, scanning columns left to right and
replacing the current best only on a strictly greater score. -/
def pred_by_score (s : GestureSample) : Gesture :=
  [Gesture.OK, Gesture.Palm, Gesture.Fist, Gesture.Idx].foldl
    (fun best g => if scoreOf s best < scoreOf s g then g else best) Gesture.V

/-- `scale`: arithmetic mean of the four finger lengths. -/
def scaleOf (s : GestureSample) : ℚ :=
  (s.lenIdx + s.lenMid + s.lenRing + s.lenLit) / 4

/-- `LABEL_MAP` of smart_analyzer.py followed by `fillna('Unknown')`:
exact-string lookup, anything unmapped normalizes to Unknown. -/
def LABEL_MAP (raw : List Char) : NLabel :=
  if raw = ("拳头").data then NLabel.Fist
  else if raw = ("手掌张开").data then NLabel.Palm
  else if raw = ("OK手势").data then NLabel.OK
  else if raw = ("食指").data then NLabel.Idx
  else if raw = ("V手势").data then NLabel.V
  else if raw = ("V 手势").data then NLabel.V
  else NLabel.Unknown

/-- Insertion into a sorted list (ascending). -/
def insertQ (x : ℚ) : List ℚ → List ℚ
  | [] => [x]
  | y :: ys => if x ≤ y then x :: y :: ys else y :: insertQ x ys

/-- Ascending sort of the values, as the quantile computation sees them. -/
def sortQ (l : List ℚ) : List ℚ := l.foldr insertQ []

/-- `Series.quantile(q)` with the default linear interpolation: with the
values sorted ascending as `s₀ … s_{n-1}`, the quantile sits at position
`h = q·(n-1)`; with `k = ⌊h⌋` it is `s_k + (h-k)·(s_{k+1} - s_k)`. -/
def quantileLinear (xs : List ℚ) (q : ℚ) : ℚ :=
  let s := sortQ xs
  let n := s.length
  let h : ℚ := q * ((n : ℚ) - 1)
  let k : ℕ := (Int.floor h).toNat
  let lo := s.getD k 0
  let hi := s.getD (k + 1) lo
  lo + (h - (k : ℚ)) * (hi - lo)

/-- The batch's 33rd-percentile cut of scale. -/
def batchQ33 (samples : List GestureSample) : ℚ :=
  quantileLinear (samples.map scaleOf) (33 / 100)

/-- The batch's 66th-percentile cut of scale. -/
def batchQ66 (samples : List GestureSample) : ℚ :=
  quantileLinear (samples.map scaleOf) (66 / 100)

/-- `pd.cut(scale, bins=[-inf, q33, q66, inf], labels=['far','mid','near'])`
with the default right-closed intervals: `(-inf, q33] ↦ far`,
`(q33, q66] ↦ mid`, `(q66, inf) ↦ near`.  (`pd.cut` requires strictly
increasing bin edges; when `q33 = q66` the source raises instead of
assigning groups, so this total function describes it only under
`q33 < q66`.) -/
def assignGroup (q33 q66 x : ℚ) : Group :=
  if x ≤ q33 then Group.far else if x ≤ q66 then Group.mid else Group.near

/-- A sample extended with its derived columns. -/
structure DSample where
  base : GestureSample
  scale : ℚ
  pred : Gesture
  label_norm : NLabel
  scale_group : Group
deriving DecidableEq, Repr

/-- The derived-feature pass shared by both scripts: per-sample `scale`,
`pred_by_score` and normalized label, plus the batch-relative distance
group from the two quantile cuts. -/
def add_derived_features (samples : List GestureSample) : List DSample :=
  let q33 := batchQ33 samples
  let q66 := batchQ66 samples
  samples.map (fun s =>
    ⟨s, scaleOf s, pred_by_score s, LABEL_MAP s.raw_label,
      assignGroup q33 q66 (scaleOf s)⟩)

/-! ### Dominant-gesture detection (`_detect_dominant_gesture`) -/

/-- Result of `_detect_dominant_gesture`: a gesture name, the string
`Mixed`, or the string `Unknown` (returned when no non-Unknown labels
exist at all). -/
inductive Dominant
  | gesture (g : Gesture)
  | mixed
  | unknownBatch
deriving DecidableEq, Repr

/-- Partial inverse of label normalization (defaulting on Unknown,
which the callers never hit). -/
def toGesture : NLabel → Gesture
  | NLabel.OK => Gesture.OK
  | NLabel.Palm => Gesture.Palm
  | NLabel.Fist => Gesture.Fist
  | NLabel.Idx => Gesture.Idx
  | _ => Gesture.V

/-- `_detect_dominant_gesture`: drop Unknown labels; if nothing is left
return the Unknown classification; otherwise take the most frequent
label (the source's `value_counts` leaves the order of equally frequent
labels unspecified, modelled here as first-seen-among-maxima) and call
it dominant exactly when its share strictly exceeds 40 percent. -/
def pickTop (full : List NLabel) (v : NLabel) (vs : List NLabel) : NLabel :=
  vs.foldl (fun best x => if full.count best < full.count x then x else best) v

/-- The detection itself, on the batch's normalized labels. -/
def detect_dominant_gesture (labels : List NLabel) : Dominant :=
  let valid := labels.filter (fun l => l ≠ NLabel.Unknown)
  match valid with
  | [] => Dominant.unknownBatch
  | v :: vs =>
      let top := pickTop valid v vs
      if 2 * valid.length < 5 * valid.count top then
        Dominant.gesture (toGesture top)
      else Dominant.mixed

/-- `pred_by_score == dominant_gesture` as the string comparison the
source performs (the strings `Unknown` and `Mixed` equal no gesture). -/
def predEqDominant (d : Dominant) (p : Gesture) : Bool :=
  match d with
  | Dominant.gesture g => p = g
  | _ => false

/-- `is_correct` for one sample, given the detected dominant gesture.
With the `Unknown` classification the source sets `gt_gesture` to the
literal string `Unknown`, so every sample compares incorrect. -/
def isCorrectD (d : Dominant) (p : Gesture) : Bool :=
  match d with
  | Dominant.gesture g => p = g
  | Dominant.unknownBatch => false
  | Dominant.mixed => false

/-- Whether `_add_derived_features` adds the `gt_gesture`/`is_correct`
columns: it does whenever the detection result is not `Mixed` —
including the `Unknown` classification. -/
def hasCorrectness : Dominant → Bool
  | Dominant.mixed => false
  | _ => true

/-- Mean of `is_correct` over a set of samples. -/
def accuracy (d : Dominant) (xs : List DSample) : ℚ :=
  ((xs.countP (fun x => isCorrectD d x.pred) : ℕ) : ℚ) / (xs.length : ℚ)

/-! ### Issue diagnosis (`_diagnose_issues`) -/

/-- The four drift-checked features. -/
inductive Feat | gapIdxMid | gapThumbIdx | ratio_idx_mid | ratio_ring_mid
deriving DecidableEq, Repr, Fintype

def featVal (f : Feat) (x : DSample) : ℚ :=
  match f with
  | Feat.gapIdxMid => x.base.gapIdxMid
  | Feat.gapThumbIdx => x.base.gapThumbIdx
  | Feat.ratio_idx_mid => x.base.ratio_idx_mid
  | Feat.ratio_ring_mid => x.base.ratio_ring_mid

inductive Severity | info | medium | high
deriving DecidableEq, Repr

/-- The issue types emitted by `_diagnose_issues`, keyed the way the
source keys them by their `type` strings. -/
inductive IssueKind
  | mixedGestures
  | lowOverall
  | lowGroup (g : Group)
  | featDiff (f : Feat)
deriving DecidableEq, Repr

structure Issue where
  kind : IssueKind
  severity : Severity
  value : Option ℚ
  correct_mean : Option ℚ
  wrong_mean : Option ℚ
deriving DecidableEq, Repr

/-- Mean of a list of values (call sites guard emptiness exactly where
the source's NaN propagation makes the comparison false). -/
def meanQ (xs : List ℚ) : ℚ := xs.sum / (xs.length : ℚ)

/-- The overall-accuracy check: `overall_acc = df['is_correct'].mean()`
compared `< 0.7`.  The length guard models the source's NaN semantics:
on an empty frame the mean is NaN and the comparison is false (an empty
frame is unreachable anyway, extraction raises "no data" first). -/
def overall_issues (d : Dominant) (xs : List DSample) : List Issue :=
  if 0 < xs.length ∧ accuracy d xs < 7 / 10 then
    [⟨IssueKind.lowOverall, Severity.high, some (accuracy d xs), none, none⟩]
  else []

/-- The per-group accuracy check for one group: only groups with
strictly more than 5 samples are examined, and an issue is emitted when
the group accuracy is below 0.5. -/
def group_issue (d : Dominant) (xs : List DSample) (g : Group) : List Issue :=
  let sub := xs.filter (fun x => x.scale_group = g)
  if 5 < sub.length ∧ accuracy d sub < 1 / 2 then
    [⟨IssueKind.lowGroup g, Severity.high, some (accuracy d sub), none, none⟩]
  else []

/-- The drift check for one feature: means over the samples predicted
as the dominant gesture versus the wrong samples; an empty
predicted-as-dominant set gives a NaN mean in the source, whose
comparison is false, hence no issue. -/
def feat_issue (d : Dominant) (xs : List DSample) (f : Feat) : List Issue :=
  let gestureData := xs.filter (fun x => predEqDominant d x.pred)
  let wrongData := xs.filter (fun x => isCorrectD d x.pred = false)
  if gestureData = [] then []
  else
    let cm := meanQ (gestureData.map (featVal f))
    let wm := meanQ (wrongData.map (featVal f))
    if cm * (3 / 10) < |cm - wm| then
      [⟨IssueKind.featDiff f, Severity.medium, none, some cm, some wm⟩]
    else []

/-- The feature-drift block, skipped entirely when there are no wrong
samples; the four features are scanned in the source's order. -/
def feat_issues (d : Dominant) (xs : List DSample) : List Issue :=
  if (xs.filter (fun x => isCorrectD d x.pred = false)).length = 0 then []
  else
    feat_issue d xs Feat.gapIdxMid ++ feat_issue d xs Feat.gapThumbIdx ++
    feat_issue d xs Feat.ratio_idx_mid ++ feat_issue d xs Feat.ratio_ring_mid

/-- `_diagnose_issues`: on a Mixed batch, exactly the single
informational issue recommending single-gesture collection and nothing
else (early return); otherwise the overall-accuracy check, the
per-group checks scanned far, mid, near, then the feature-drift
checks. -/
def diagnose_issues (d : Dominant) (xs : List DSample) : List Issue :=
  if d = Dominant.mixed then
    [⟨IssueKind.mixedGestures, Severity.info, none, none, none⟩]
  else
    overall_issues d xs ++
    (group_issue d xs Group.far ++ group_issue d xs Group.mid ++
      group_issue d xs Group.near) ++
    feat_issues d xs

/-! ### Recommendation generation (`_generate_recommendations`) -/

inductive Priority | low | medium | high
deriving DecidableEq, Repr

inductive RecCategory | algoOpt | thresholdAdj | perfOpt
deriving DecidableEq, Repr

/-- The named numeric parameters of the generated threshold snippets. -/
inductive ThreshKey
  | indexMiddleGapMin
  | indexToMiddleRatioMin
  | ringToMiddleRatioMax
  | thumbIndexGapMax
deriving DecidableEq, Repr

structure Recommendation where
  priority : Priority
  category : RecCategory
  gesture : Option Gesture
  distance_group : Option Group
  thresholds : List (ThreshKey × ℚ)
deriving DecidableEq, Repr

/-- The dominant gesture as passed (as a string) to the threshold
generator; only reached when it names one of the five gestures. -/
def domGesture : Dominant → Gesture
  | Dominant.gesture g => g
  | _ => Gesture.V

/-- `_generate_threshold_recommendation`: for V, the 10th percentiles of
`gapIdxMid` and `ratio_idx_mid` as lower bounds and the 90th percentile
of `ratio_ring_mid` as an upper bound; for OK, the 90th percentile of
`gapThumbIdx` as an upper bound; no numeric cutoffs for other
gestures. -/
def generate_threshold_recommendation (g : Gesture) (data : List DSample)
    (grp : Group) : Recommendation :=
  let ths : List (ThreshKey × ℚ) :=
    match g with
    | Gesture.V =>
        [ (ThreshKey.indexMiddleGapMin,
            quantileLinear (data.map (featVal Feat.gapIdxMid)) (1 / 10)),
          (ThreshKey.indexToMiddleRatioMin,
            quantileLinear (data.map (featVal Feat.ratio_idx_mid)) (1 / 10)),
          (ThreshKey.ringToMiddleRatioMax,
            quantileLinear (data.map (featVal Feat.ratio_ring_mid)) (9 / 10)) ]
    | Gesture.OK =>
        [ (ThreshKey.thumbIndexGapMax,
            quantileLinear (data.map (featVal Feat.gapThumbIdx)) (9 / 10)) ]
    | _ => []
  ⟨Priority.high, RecCategory.thresholdAdj, some g, some grp, ths⟩

/-- `_generate_recommendations`: nothing on a Mixed batch; a generic
high-priority recommendation per low-overall-accuracy issue; a
threshold recommendation per far-group and per mid-group
low-accuracy issue whose correct subset is non-empty (the source has no
branch for the near group); if no recommendation was produced and
overall accuracy exceeds 0.85, one low-priority edge-case
recommendation. -/
def recs_for_issue (d : Dominant) (xs : List DSample) (i : Issue) :
    List Recommendation :=
  match i.kind with
  | IssueKind.lowOverall =>
      [⟨Priority.high, RecCategory.algoOpt, none, none, []⟩]
  | IssueKind.lowGroup Group.far =>
      let farData := xs.filter (fun x => x.scale_group = Group.far)
      let correctFar := farData.filter (fun x => isCorrectD d x.pred)
      if correctFar.length = 0 then []
      else [generate_threshold_recommendation (domGesture d) correctFar Group.far]
  | IssueKind.lowGroup Group.mid =>
      let midData := xs.filter (fun x => x.scale_group = Group.mid)
      let correctMid := midData.filter (fun x => isCorrectD d x.pred)
      if correctMid.length = 0 then []
      else [generate_threshold_recommendation (domGesture d) correctMid Group.mid]
  | _ => []

def generate_recommendations (d : Dominant) (xs : List DSample)
    (issues : List Issue) : List Recommendation :=
  match d with
  | Dominant.mixed => []
  | _ =>
    let main := issues.foldr (fun i acc => recs_for_issue d xs i ++ acc) []
    if main.length = 0 ∧ 0 < xs.length ∧ 17 / 20 < accuracy d xs then
      main ++ [⟨Priority.low, RecCategory.perfOpt, none, none, []⟩]
    else main

/-! ### Claim theorems -/

/-- **C2.** For every sample, `pred_by_score` names a gesture whose
score is maximal among the five scores; on ties the gesture appearing
first in the fixed column order V, OK, Palm, Fist, Idx wins (the
`idxmax` first-maximum rule); and the result is always one of the five
fixed gesture names — the codomain has no Unknown and the function is
total, so the label is never absent. -/
theorem pred_by_score_argmax (s : GestureSample) (g : Gesture) :
    scoreOf s g ≤ scoreOf s (pred_by_score s) ∧
    (scoreOf s g = scoreOf s (pred_by_score s) →
      gestureRank (pred_by_score s) ≤ gestureRank g) ∧
    pred_by_score s ∈ [Gesture.V, Gesture.OK, Gesture.Palm, Gesture.Fist, Gesture.Idx] := by
  cases g <;>
    ( simp only [pred_by_score, List.foldl_cons, List.foldl_nil]
      split_ifs <;>
        refine ⟨by linarith, fun h => ?_, by decide⟩ <;>
        simp only [gestureRank] <;>
        first
          | omega
          | (exfalso; linarith) )

/-- Witness for **C2** at a concrete sample with a two-way tie between
the V and OK scores: the prediction carries a maximal score and the
tie resolves to V, the earlier column. -/
def tieSample : GestureSample :=
  ⟨("x").data, 0, 0, 0, 0, 0, 0, 0, 0, 0, 5, 5, 0, -1, 2⟩

theorem pred_by_score_argmax_witness :
    scoreOf tieSample Gesture.OK ≤ scoreOf tieSample (pred_by_score tieSample) ∧
    gestureRank (pred_by_score tieSample) ≤ gestureRank Gesture.OK := by
  refine ⟨(pred_by_score_argmax tieSample Gesture.OK).1, ?_⟩
  exact (pred_by_score_argmax tieSample Gesture.OK).2.1 (by decide)

/-- **C7.** On a batch classified Mixed, diagnosis is exactly the one
informational issue recommending single-gesture data collection
(the source's early return): no accuracy, group-accuracy or
feature-drift issue is produced. -/
theorem diagnose_mixed_single_issue (xs : List DSample) :
    diagnose_issues Dominant.mixed xs =
      [⟨IssueKind.mixedGestures, Severity.info, none, none, none⟩] ∧
    (diagnose_issues Dominant.mixed xs).length = 1 := by
  refine ⟨?_, ?_⟩ <;> simp [diagnose_issues]

/-! Helper lemmas about the kinds of the issues each diagnosis block
can emit. -/

theorem overall_issues_kinds (d : Dominant) (xs : List DSample) :
    ∀ i ∈ overall_issues d xs, i.kind = IssueKind.lowOverall := by
  intro i hi
  simp only [overall_issues] at hi
  split_ifs at hi with h
  · simp only [List.mem_singleton] at hi; subst hi; rfl
  · simp at hi

theorem group_issue_kinds (d : Dominant) (xs : List DSample) (g : Group) :
    ∀ i ∈ group_issue d xs g, i.kind = IssueKind.lowGroup g := by
  intro i hi
  simp only [group_issue] at hi
  split_ifs at hi with h
  · simp only [List.mem_singleton] at hi; subst hi; rfl
  · simp at hi

theorem feat_issue_kinds (d : Dominant) (xs : List DSample) (f : Feat) :
    ∀ i ∈ feat_issue d xs f, i.kind = IssueKind.featDiff f := by
  intro i hi
  simp only [feat_issue] at hi
  split_ifs at hi with h1 h2
  · simp at hi
  · simp only [List.mem_singleton] at hi; subst hi; rfl
  · simp at hi

theorem feat_issues_kinds (d : Dominant) (xs : List DSample) :
    ∀ i ∈ feat_issues d xs, ∃ f, i.kind = IssueKind.featDiff f := by
  intro i hi
  simp only [feat_issues] at hi
  split_ifs at hi with h
  · simp at hi
  · simp only [List.mem_append] at hi
    rcases hi with ((h1 | h2) | h3) | h4
    · exact ⟨_, feat_issue_kinds d xs Feat.gapIdxMid i h1⟩
    · exact ⟨_, feat_issue_kinds d xs Feat.gapThumbIdx i h2⟩
    · exact ⟨_, feat_issue_kinds d xs Feat.ratio_idx_mid i h3⟩
    · exact ⟨_, feat_issue_kinds d xs Feat.ratio_ring_mid i h4⟩

/-- **C8.** On a batch whose correctness fields exist (the detection
result is not Mixed) with overall accuracy below 0.7, diagnosis emits
exactly one low-overall-accuracy issue; it is high-severity and carries
the numeric accuracy. -/
theorem low_overall_accuracy_issue (d : Dominant) (xs : List DSample)
    (hd : d ≠ Dominant.mixed) (hne : xs ≠ [])
    (hacc : accuracy d xs < 7 / 10) :
    (diagnose_issues d xs).filter (fun i => i.kind = IssueKind.lowOverall) =
      [⟨IssueKind.lowOverall, Severity.high, some (accuracy d xs), none, none⟩] := by
  have hlen : 0 < xs.length := List.length_pos.mpr hne
  have hov : overall_issues d xs =
      [⟨IssueKind.lowOverall, Severity.high, some (accuracy d xs), none, none⟩] := by
    unfold overall_issues
    rw [if_pos ⟨hlen, hacc⟩]
  have hgr : ∀ g : Group,
      (group_issue d xs g).filter (fun i => i.kind = IssueKind.lowOverall) = [] := by
    intro g
    refine List.filter_eq_nil_iff.mpr (fun i hi => ?_)
    have := group_issue_kinds d xs g i hi
    simp [this]
  have hft : (feat_issues d xs).filter (fun i => i.kind = IssueKind.lowOverall) = [] := by
    refine List.filter_eq_nil_iff.mpr (fun i hi => ?_)
    obtain ⟨f, hf⟩ := feat_issues_kinds d xs i hi
    simp [hf]
  simp [diagnose_issues, if_neg hd, List.filter_append, hov, hgr, hft]

/-- Witness for **C8**: a 100-sample batch with detected dominant
gesture V and 50 correct predictions yields exactly one high-severity
low-overall-accuracy issue with value 0.50. -/
def baseS : GestureSample := ⟨("x").data, 0, 0, 0, 0, 0, 0, 0, 0, 0, 0, 0, 0, 0, 0⟩

def dsm (g : Group) (p : Gesture) : DSample := ⟨baseS, 0, p, NLabel.V, g⟩

def batch100 : List DSample :=
  List.replicate 50 (dsm Group.far Gesture.V) ++
  List.replicate 50 (dsm Group.far Gesture.OK)

set_option maxRecDepth 4000 in
theorem low_overall_accuracy_issue_witness :
    (diagnose_issues (Dominant.gesture Gesture.V) batch100).filter
        (fun i => i.kind = IssueKind.lowOverall) =
      [⟨IssueKind.lowOverall, Severity.high, some (1 / 2), none, none⟩] := by
  have h := low_overall_accuracy_issue (Dominant.gesture Gesture.V) batch100
    (by decide) (by decide) (by decide)
  rw [h]
  decide

/-- **C9.** For each distance group, a high-severity low-group-accuracy
issue naming the group and carrying the numeric value is emitted
exactly when the group has strictly more than 5 samples and its
accuracy is below 0.5; groups with at most 5 samples are always
skipped. -/
theorem low_group_accuracy_issue (d : Dominant) (xs : List DSample) (g : Group)
    (hd : d ≠ Dominant.mixed) :
    (diagnose_issues d xs).filter (fun i => i.kind = IssueKind.lowGroup g) =
      (if 5 < (xs.filter (fun x => x.scale_group = g)).length ∧
          accuracy d (xs.filter (fun x => x.scale_group = g)) < 1 / 2 then
        [⟨IssueKind.lowGroup g, Severity.high,
          some (accuracy d (xs.filter (fun x => x.scale_group = g))), none, none⟩]
      else []) := by
  have hov : (overall_issues d xs).filter (fun i => i.kind = IssueKind.lowGroup g) = [] := by
    refine List.filter_eq_nil_iff.mpr (fun i hi => ?_)
    have := overall_issues_kinds d xs i hi
    simp [this]
  have hft : (feat_issues d xs).filter (fun i => i.kind = IssueKind.lowGroup g) = [] := by
    refine List.filter_eq_nil_iff.mpr (fun i hi => ?_)
    obtain ⟨f, hf⟩ := feat_issues_kinds d xs i hi
    simp [hf]
  have hother : ∀ h : Group, h ≠ g →
      (group_issue d xs h).filter (fun i => i.kind = IssueKind.lowGroup g) = [] := by
    intro h hne
    refine List.filter_eq_nil_iff.mpr (fun i hi => ?_)
    have := group_issue_kinds d xs h i hi
    simp [this, hne]
  have hsame : (group_issue d xs g).filter (fun i => i.kind = IssueKind.lowGroup g) =
      group_issue d xs g := by
    refine List.filter_eq_self.mpr (fun i hi => ?_)
    have := group_issue_kinds d xs g i hi
    simp [this]
  have hdg : diagnose_issues d xs =
      overall_issues d xs ++
        (group_issue d xs Group.far ++ group_issue d xs Group.mid ++
          group_issue d xs Group.near) ++ feat_issues d xs := by
    unfold diagnose_issues
    rw [if_neg hd]
  rw [hdg, List.filter_append, List.filter_append, List.filter_append,
    List.filter_append, hov, hft]
  cases g
  · rw [hsame, hother Group.mid (by decide), hother Group.near (by decide)]
    simp only [List.append_nil, List.nil_append]
    rfl
  · rw [hsame, hother Group.far (by decide), hother Group.near (by decide)]
    simp only [List.append_nil, List.nil_append]
    rfl
  · rw [hsame, hother Group.far (by decide), hother Group.mid (by decide)]
    simp only [List.append_nil, List.nil_append]
    rfl

/-- Witness for **C9**: a far group of only 4 samples at 0 percent
accuracy raises no low-group-accuracy issue. -/
def batch4 : List DSample := List.replicate 4 (dsm Group.far Gesture.OK)

theorem low_group_accuracy_issue_witness :
    (diagnose_issues (Dominant.gesture Gesture.V) batch4).filter
        (fun i => i.kind = IssueKind.lowGroup Group.far) = [] := by
  have h := low_group_accuracy_issue (Dominant.gesture Gesture.V) batch4 Group.far
    (by decide)
  rw [h]
  decide

/-! ### C1: quantile-based distance binning -/

/-- A sample whose four finger lengths all equal `v`, so its scale is
`v`. -/
def lensSample (v : ℚ) : GestureSample :=
  ⟨("V手势").data, v, v, v, v, 0, 0, 0, 0, 0, 0, 0, 0, 0, 0⟩

/-- A three-sample batch with scales 0, 10, 10: its 66th-percentile cut
is exactly 10. -/
def cexBatch : List GestureSample := [lensSample 0, lensSample 10, lensSample 10]

set_option maxRecDepth 40000 in
/-- **C1 counterexample.** In the batch with scales 0, 10, 10 the
66th-percentile cut equals 10, and the samples of scale 10 — which
satisfy `scale ≥ q66` — are assigned `mid`, not `near`: `pd.cut` uses
right-closed bins, so a tie at a cut boundary falls into the
lower-valued group, contradicting the claim's `scale ≥ q66 → near`
inequality. -/
theorem quantile_cut_boundary_cex :
    batchQ66 cexBatch = 10 ∧
    scaleOf (lensSample 10) = 10 ∧
    batchQ66 cexBatch ≤ scaleOf (lensSample 10) ∧
    (add_derived_features cexBatch).map (fun x => x.scale_group) =
      [Group.far, Group.mid, Group.mid] ∧
    Group.mid ≠ Group.near := by decide

/-- **C1 (amended).** The cut points are the linear-interpolation 33rd
and 66th percentiles of scale over the whole batch and, provided the two
cuts are distinct (`pd.cut` raises on duplicate bin edges), each
sample's group is assigned with boundary ties falling into the
lower-valued group: `scale ≤ q33 → far`, `q33 < scale ≤ q66 → mid`,
`scale > q66 → near`. -/
theorem quantile_cut_assignment (samples : List GestureSample)
    (h : batchQ33 samples < batchQ66 samples) :
    ∀ x ∈ add_derived_features samples,
      x.scale = scaleOf x.base ∧
      (x.scale_group = Group.far ↔ x.scale ≤ batchQ33 samples) ∧
      (x.scale_group = Group.mid ↔
        batchQ33 samples < x.scale ∧ x.scale ≤ batchQ66 samples) ∧
      (x.scale_group = Group.near ↔ batchQ66 samples < x.scale) := by
  intro x hx
  simp only [add_derived_features, List.mem_map] at hx
  obtain ⟨s, _hs, rfl⟩ := hx
  dsimp only
  unfold assignGroup
  split_ifs with h1 h2
  · exact ⟨rfl,
      ⟨fun _ => h1, fun _ => rfl⟩,
      ⟨fun hh => absurd hh (by decide), fun hh => absurd hh.1 (not_lt.mpr h1)⟩,
      ⟨fun hh => absurd hh (by decide),
        fun hh => absurd hh (not_lt.mpr (le_trans h1 h.le))⟩⟩
  · exact ⟨rfl,
      ⟨fun hh => absurd hh (by decide), fun hh => absurd hh h1⟩,
      ⟨fun _ => ⟨not_le.mp h1, h2⟩, fun _ => rfl⟩,
      ⟨fun hh => absurd hh (by decide), fun hh => absurd hh (not_lt.mpr h2)⟩⟩
  · exact ⟨rfl,
      ⟨fun hh => absurd hh (by decide), fun hh => absurd hh h1⟩,
      ⟨fun hh => absurd hh (by decide), fun hh => absurd hh.2 h2⟩,
      ⟨fun _ => not_le.mp h2, fun _ => rfl⟩⟩

set_option maxRecDepth 40000 in
/-- Witness for **C1 (amended)**: in the concrete batch the cuts are
distinct and the scale-0 sample lands in `far`. -/
theorem quantile_cut_assignment_witness :
    batchQ33 cexBatch < batchQ66 cexBatch ∧
    ((add_derived_features cexBatch).getD 0 (dsm Group.near Gesture.V)).scale_group
        = Group.far ∧
    ((add_derived_features cexBatch).getD 0 (dsm Group.near Gesture.V)).scale ≤
      batchQ33 cexBatch := by
  have h := quantile_cut_assignment cexBatch (by decide)
  have hx := h ((add_derived_features cexBatch).getD 0 (dsm Group.near Gesture.V))
    (by decide)
  exact ⟨by decide, hx.2.1.mpr (by decide), by decide⟩

/-! ### C6: dominant-gesture detection -/

theorem pickTop_spec (full : List NLabel) (vs : List NLabel) (v : NLabel) :
    (pickTop full v vs = v ∨ pickTop full v vs ∈ vs) ∧
    full.count v ≤ full.count (pickTop full v vs) ∧
    ∀ x ∈ vs, full.count x ≤ full.count (pickTop full v vs) := by
  induction vs generalizing v with
  | nil => exact ⟨Or.inl rfl, le_refl _, by simp⟩
  | cons a as ih =>
      by_cases hc : full.count v < full.count a
      · obtain ⟨h1, h2, h3⟩ := ih a
        have hfold : pickTop full v (a :: as) = pickTop full a as := by
          simp [pickTop, List.foldl_cons, if_pos hc]
        rw [hfold]
        refine ⟨?_, ?_, ?_⟩
        · rcases h1 with hh | hh
          · exact Or.inr (by simp [hh])
          · exact Or.inr (List.mem_cons_of_mem _ hh)
        · exact le_trans (le_of_lt hc) h2
        · intro x hx
          rcases List.mem_cons.mp hx with rfl | hx2
          · exact h2
          · exact h3 x hx2
      · obtain ⟨h1, h2, h3⟩ := ih v
        have hfold : pickTop full v (a :: as) = pickTop full v as := by
          simp [pickTop, List.foldl_cons, if_neg hc]
        rw [hfold]
        refine ⟨?_, ?_, ?_⟩
        · rcases h1 with hh | hh
          · exact Or.inl hh
          · exact Or.inr (List.mem_cons_of_mem _ hh)
        · exact h2
        · intro x hx
          rcases List.mem_cons.mp hx with rfl | hx2
          · exact le_trans (not_lt.mp hc) h2
          · exact h3 x hx2

/-- **C6 counterexample.** A batch whose labels all normalize to
Unknown is classified `Unknown`, not `Mixed`, and the correctness
columns ARE added for it (`gt_gesture` is set to the literal string
`Unknown`, making every sample incorrect) — contradicting the claim
that such a batch is declared Mixed with no correctness fields. -/
theorem detect_unknown_batch_cex :
    LABEL_MAP ("abc").data = NLabel.Unknown ∧
    detect_dominant_gesture [LABEL_MAP ("abc").data] = Dominant.unknownBatch ∧
    Dominant.unknownBatch ≠ Dominant.mixed ∧
    hasCorrectness (detect_dominant_gesture [LABEL_MAP ("abc").data]) = true := by
  decide

/-- **C6 (amended).** When at least one non-Unknown label exists and the
most frequent non-Unknown label is unique, that label is the dominant
gesture exactly when its count exceeds 40 percent of the non-Unknown
samples, and otherwise the batch is Mixed; the correctness columns are
omitted exactly for Mixed batches.  (With zero non-Unknown samples the
source instead returns the `Unknown` classification and does add
correctness columns.) -/
theorem detect_dominant_spec (labels : List NLabel) (m : NLabel)
    (hmu : m ≠ NLabel.Unknown) (hmem : m ∈ labels)
    (huniq : ∀ l : NLabel, l ≠ NLabel.Unknown → l ≠ m →
      (labels.filter (fun x => x ≠ NLabel.Unknown)).count l <
        (labels.filter (fun x => x ≠ NLabel.Unknown)).count m) :
    (detect_dominant_gesture labels = Dominant.gesture (toGesture m) ↔
      2 * (labels.filter (fun x => x ≠ NLabel.Unknown)).length <
        5 * (labels.filter (fun x => x ≠ NLabel.Unknown)).count m) ∧
    (detect_dominant_gesture labels = Dominant.mixed ↔
      ¬ 2 * (labels.filter (fun x => x ≠ NLabel.Unknown)).length <
        5 * (labels.filter (fun x => x ≠ NLabel.Unknown)).count m) ∧
    (hasCorrectness (detect_dominant_gesture labels) = false ↔
      detect_dominant_gesture labels = Dominant.mixed) := by
  have hmv : m ∈ labels.filter (fun x => x ≠ NLabel.Unknown) :=
    List.mem_filter.mpr ⟨hmem, by simp [hmu]⟩
  obtain ⟨v, vs, hval⟩ :
      ∃ v vs, labels.filter (fun x => x ≠ NLabel.Unknown) = v :: vs := by
    cases hv : labels.filter (fun x => x ≠ NLabel.Unknown) with
    | nil => rw [hv] at hmv; cases hmv
    | cons a as => exact ⟨a, as, rfl⟩
  obtain ⟨ht1, ht2, ht3⟩ :=
    pickTop_spec (labels.filter (fun x => x ≠ NLabel.Unknown)) vs v
  have hvmem : v ∈ labels.filter (fun x => x ≠ NLabel.Unknown) := by
    rw [hval]; exact List.mem_cons_self _ _
  have htopmem : pickTop (labels.filter (fun x => x ≠ NLabel.Unknown)) v vs ∈
      labels.filter (fun x => x ≠ NLabel.Unknown) := by
    rcases ht1 with hh | hh
    · rw [hh]; exact hvmem
    · have hcons : pickTop (labels.filter (fun x => x ≠ NLabel.Unknown)) v vs ∈
          v :: vs := List.mem_cons_of_mem _ hh
      exact hval.symm ▸ hcons
  have htopall : ∀ x ∈ labels.filter (fun x => x ≠ NLabel.Unknown),
      (labels.filter (fun x => x ≠ NLabel.Unknown)).count x ≤
        (labels.filter (fun x => x ≠ NLabel.Unknown)).count
          (pickTop (labels.filter (fun x => x ≠ NLabel.Unknown)) v vs) := by
    intro x hx
    rw [hval] at hx
    rcases List.mem_cons.mp hx with rfl | hx2
    · exact ht2
    · exact ht3 x hx2
  have htopu : pickTop (labels.filter (fun x => x ≠ NLabel.Unknown)) v vs ≠
      NLabel.Unknown := by
    have := (List.mem_filter.mp htopmem).2
    simpa using this
  have htop_eq : pickTop (labels.filter (fun x => x ≠ NLabel.Unknown)) v vs = m := by
    by_contra hne
    have hlt := huniq _ htopu hne
    have hge := htopall m hmv
    omega
  have hdet : detect_dominant_gesture labels =
      (if 2 * (labels.filter (fun x => x ≠ NLabel.Unknown)).length <
          5 * (labels.filter (fun x => x ≠ NLabel.Unknown)).count m then
        Dominant.gesture (toGesture m)
      else Dominant.mixed) := by
    unfold detect_dominant_gesture
    rw [← htop_eq]
    rw [hval]
  by_cases hcond : 2 * (labels.filter (fun x => x ≠ NLabel.Unknown)).length <
      5 * (labels.filter (fun x => x ≠ NLabel.Unknown)).count m
  · rw [if_pos hcond] at hdet
    rw [hdet]
    exact ⟨⟨fun _ => hcond, fun _ => rfl⟩,
      ⟨fun hh => absurd hh (by simp), fun hh => absurd hcond hh⟩,
      ⟨fun hh => by simp [hasCorrectness] at hh, fun hh => by simp at hh⟩⟩
  · rw [if_neg hcond] at hdet
    rw [hdet]
    exact ⟨⟨fun hh => by simp at hh, fun hh => absurd hh hcond⟩,
      ⟨fun _ => hcond, fun _ => rfl⟩,
      ⟨fun _ => rfl, fun _ => rfl⟩⟩

/-- Witness for **C6 (amended)**: in the batch V, V, OK the unique most
frequent label V holds 2 of 3 non-Unknown samples (more than 40
percent), so V is detected as dominant. -/
theorem detect_dominant_spec_witness :
    detect_dominant_gesture [NLabel.V, NLabel.V, NLabel.OK] =
      Dominant.gesture Gesture.V := by
  have h := detect_dominant_spec [NLabel.V, NLabel.V, NLabel.OK] NLabel.V
    (by decide) (by decide) (by decide)
  exact h.1.mpr (by decide)

/-! ### C4, C5, C10: extraction behavior -/

instance {ε α : Type} [DecidableEq ε] [DecidableEq α] :
    DecidableEq (Except ε α) := fun a b =>
  match a, b with
  | Except.ok x, Except.ok y =>
      if h : x = y then isTrue (by rw [h]) else isFalse (by simp [h])
  | Except.error x, Except.error y =>
      if h : x = y then isTrue (by rw [h]) else isFalse (by simp [h])
  | Except.ok _, Except.error _ => isFalse (by simp)
  | Except.error _, Except.ok _ => isFalse (by simp)

/-- A line on which the run aborts: a candidate that structurally
matches but whose captured tokens fail `float()`. -/
def lineAborts (l : List Char) : Bool :=
  isCandidate l &&
    (match matchLine l with
     | some caps => (convCaps caps).isNone
     | none => false)

/-- The record one line contributes (skipping non-candidates and
unmatched candidates). -/
def extractOf (l : List Char) : Option GestureSample :=
  if isCandidate l then (matchLine l).bind convCaps else none

/-- The per-line diagnostics `parse_log_file` prints: one per candidate
line that fails the grammar, with its 1-based line number and stripped
content truncated to 100 characters. -/
def failReports : ℕ → List (List Char) → List ParseWarn
  | _, [] => []
  | n, l :: ls =>
      if isCandidate l ∧ matchLine l = none then
        truncWarn n l :: failReports (n + 1) ls
      else failReports (n + 1) ls

theorem parseGo_ok (ls : List (List Char)) : ∀ n : ℕ,
    (∀ l ∈ ls, lineAborts l = false) →
    parseGo n ls = Except.ok (ls.filterMap extractOf, failReports n ls) := by
  induction ls with
  | nil => intro n _; rfl
  | cons l ls ih =>
      intro n h
      have hl := h l (List.mem_cons_self _ _)
      have hrest : ∀ x ∈ ls, lineAborts x = false :=
        fun x hx => h x (List.mem_cons_of_mem _ hx)
      by_cases hc : isCandidate l = true
      · cases hm : matchLine l with
        | none =>
            simp [parseGo, hc, hm, ih (n + 1) hrest, List.filterMap_cons,
              extractOf, failReports]
        | some caps =>
            have hcv : (convCaps caps).isNone = false := by
              simp only [lineAborts, hc, hm, Bool.true_and] at hl
              exact hl
            obtain ⟨r, hr⟩ : ∃ r, convCaps caps = some r := by
              cases hx : convCaps caps with
              | none => rw [hx] at hcv; cases hcv
              | some r => exact ⟨r, rfl⟩
            simp [parseGo, hc, hm, hr, ih (n + 1) hrest, List.filterMap_cons,
              extractOf, failReports]
      · simp [parseGo, hc, ih (n + 1) hrest, List.filterMap_cons, extractOf,
          failReports]

theorem smartParseGo_ok (ls : List (List Char)) : ∀ n : ℕ,
    (∀ l ∈ ls, lineAborts l = false) →
    smartParseGo n ls = Except.ok (ls.filterMap extractOf) := by
  induction ls with
  | nil => intro n _; rfl
  | cons l ls ih =>
      intro n h
      have hl := h l (List.mem_cons_self _ _)
      have hrest : ∀ x ∈ ls, lineAborts x = false :=
        fun x hx => h x (List.mem_cons_of_mem _ hx)
      by_cases hc : isCandidate l = true
      · cases hm : matchLine l with
        | none =>
            simp [smartParseGo, hc, hm, ih (n + 1) hrest, List.filterMap_cons,
              extractOf]
        | some caps =>
            have hcv : (convCaps caps).isNone = false := by
              simp only [lineAborts, hc, hm, Bool.true_and] at hl
              exact hl
            obtain ⟨r, hr⟩ : ∃ r, convCaps caps = some r := by
              cases hx : convCaps caps with
              | none => rw [hx] at hcv; cases hcv
              | some r => exact ⟨r, rfl⟩
            simp [smartParseGo, hc, hm, hr, ih (n + 1) hrest,
              List.filterMap_cons, extractOf]
      · simp [smartParseGo, hc, ih (n + 1) hrest, List.filterMap_cons,
          extractOf]

/-- A well-formed candidate line. -/
def goodLn : List Char :=
  ("[HandGestureDebug] V手势 ✓ lenIdx:0.10 lenMid:0.12 lenRing:0.09 lenLit:0.08 gapIdxMid:0.02 gapThumbIdx:0.01 ratio idx/mid:0.83 ring/mid:0.75 lit/mid:0.66 score V/OK/Palm/Fist/Idx = 5/1/0/-1/2").data

/-- A candidate line (it carries the marker) that fails the grammar. -/
def badCandLn : List Char := ("[HandGestureDebug] garbled line").data

set_option maxRecDepth 100000 in
/-- **C5 counterexample.** On a file with one malformed candidate line
followed by one good line, both parsers proceed with the single
success, but only `parse_log_file` (analyze_gesture_log.py) reports the
failed candidate with its line number and truncated content;
`_parse_log` (smart_analyzer.py) silently skips it and produces no
per-line diagnostic at all — contradicting the claim that each failed
candidate line is reported. -/
theorem silent_parse_loss_cex :
    (parse_log_file [badCandLn, goodLn]).map (fun p => (p.1.length, p.2)) =
      Except.ok (1, [truncWarn 1 badCandLn]) ∧
    (smart_parse_log [badCandLn, goodLn]).map (fun rs => rs.length) =
      Except.ok 1 ∧
    truncWarn 1 badCandLn = ⟨1, badCandLn⟩ := by decide

/-- **C5 (amended).** For inputs on which no captured token fails the
float conversion: extraction fails with the explicit "no data" error
iff zero samples are produced; otherwise the run proceeds with exactly
the successfully matched records, `parse_log_file` additionally
reporting each failed candidate line (line number plus stripped content
truncated to 100 characters) while `_parse_log` reports nothing. -/
theorem parse_loss_policy (lines : List (List Char))
    (h : ∀ l ∈ lines, lineAborts l = false) :
    (parse_log_file lines = Except.error ParseErr.noData ↔
      lines.filterMap extractOf = []) ∧
    (lines.filterMap extractOf ≠ [] →
      parse_log_file lines =
        Except.ok (lines.filterMap extractOf, failReports 1 lines)) ∧
    (smart_parse_log lines = Except.error ParseErr.noData ↔
      lines.filterMap extractOf = []) ∧
    (lines.filterMap extractOf ≠ [] →
      smart_parse_log lines = Except.ok (lines.filterMap extractOf)) := by
  have hA := parseGo_ok lines 1 h
  have hS := smartParseGo_ok lines 1 h
  unfold parse_log_file smart_parse_log
  rw [hA, hS]
  by_cases he : lines.filterMap extractOf = []
  · simp [he]
  · simp [he]

/-- Witness for **C5 (amended)**: ten candidate lines of which seven
match and three (lines 2, 5, 9) are malformed yield seven samples and
three reports; the run does not abort, and the smart parser returns the
same seven samples with no reports. -/
def wLines : List (List Char) :=
  [goodLn, badCandLn, goodLn, goodLn, badCandLn, goodLn, goodLn, goodLn,
    badCandLn, goodLn]

set_option maxRecDepth 1000000 in
theorem parse_loss_policy_witness :
    (parse_log_file wLines).map
        (fun p => (p.1.length, p.2.map (fun w => w.lineNo))) =
      Except.ok (7, [2, 5, 9]) ∧
    (smart_parse_log wLines).map (fun rs => rs.length) = Except.ok 7 := by
  have h := parse_loss_policy wLines (by decide)
  have h1 := h.2.1 (by decide)
  have h2 := h.2.2.2 (by decide)
  rw [h1, h2]
  refine ⟨?_, ?_⟩ <;> · simp only [Except.map]; decide

/-- Structural matching implies the marker substring is present, i.e.
every matched line is a candidate line. -/
theorem matchToks_lit_prefix (p : List Char) (ts : List Tok) (s : List Char)
    (cs : List (List Char)) (h : matchToks (Tok.lit p :: ts) s = some cs) :
    p.isPrefixOf s = true := by
  by_cases hp : p.isPrefixOf s = true
  · exact hp
  · simp only [matchToks] at h
    rw [if_neg hp] at h
    cases h

theorem matchLine_isCandidate (l : List Char) (caps : RawCaps)
    (hm : matchLine l = some caps) : isCandidate l = true := by
  obtain ⟨cs, hcs⟩ : ∃ cs, reSearch gesturePat l = some cs := by
    cases hx : reSearch gesturePat l with
    | some cs => exact ⟨cs, rfl⟩
    | none =>
        unfold matchLine at hm
        rw [hx] at hm
        cases hm
  obtain ⟨i, hi, hmt⟩ := List.exists_of_findSome?_eq_some hcs
  have hpre : markerStr.data.isPrefixOf (l.drop i) = true :=
    matchToks_lit_prefix markerStr.data _ (l.drop i) cs hmt
  unfold isCandidate hasSubstr
  rw [List.any_eq_true]
  exact ⟨i, hi, hpre⟩

/-- **C4 (amended).** Extraction applies no domain-invariant
validation: every structurally matched line whose captured tokens
convert is accepted as a `GestureSample` carrying exactly the converted
values — whatever they are, a zero mid-finger length included — with no
rejection and no flagging, in both parsers. -/
theorem extraction_no_validation (l : List Char) (caps : RawCaps)
    (r : GestureSample) (hm : matchLine l = some caps)
    (hc : convCaps caps = some r) :
    parse_log_file [l] = Except.ok ([r], []) ∧
    smart_parse_log [l] = Except.ok [r] := by
  have hcand := matchLine_isCandidate l caps hm
  constructor
  · simp [parse_log_file, parseGo, hcand, hm, hc]
  · simp [smart_parse_log, smartParseGo, hcand, hm, hc]

/-- A structurally well-formed line whose `lenMid` field is zero — a
malformed sample in the sense of the domain invariant (it implies a
zero ratio denominator). -/
def zeroLenMidLn : List Char :=
  ("[HandGestureDebug] V手势 ✓ lenIdx:0.10 lenMid:0.000 lenRing:0.09 lenLit:0.08 gapIdxMid:0.02 gapThumbIdx:0.01 ratio idx/mid:12.5 ring/mid:0.75 lit/mid:0.66 score V/OK/Palm/Fist/Idx = 5/1/0/-1/2").data

set_option maxRecDepth 100000 in
/-- **C4 counterexample.** The line with `lenMid:0.000` is accepted:
extraction returns one sample whose `lenMid` is 0 and reports nothing —
the record is neither rejected nor flagged, and the zero value is
propagated downstream. -/
theorem malformed_sample_accepted_cex :
    (parse_log_file [zeroLenMidLn]).map
        (fun p => (p.1.map (fun r => r.lenMid), p.2.length)) =
      Except.ok ([0], 0) := by decide

/-- The captures and the record of the zero-`lenMid` line. -/
def zeroCaps : RawCaps :=
  ⟨("V手势").data, ("0.10").data, ("0.000").data, ("0.09").data, ("0.08").data,
    ("0.02").data, ("0.01").data, ("12.5").data, ("0.75").data, ("0.66").data,
    ("5").data, ("1").data, ("0").data, ("-1").data, ("2").data⟩

def zeroRec : GestureSample :=
  ⟨("V手势").data, 1/10, 0, 9/100, 2/25, 1/50, 1/100, 25/2, 3/4, 33/50,
    5, 1, 0, -1, 2⟩

set_option maxRecDepth 100000 in
/-- Witness for **C4 (amended)** at the zero-`lenMid` line. -/
theorem extraction_no_validation_witness :
    parse_log_file [zeroLenMidLn] = Except.ok ([zeroRec], []) ∧
    smart_parse_log [zeroLenMidLn] = Except.ok [zeroRec] :=
  extraction_no_validation zeroLenMidLn zeroCaps zeroRec (by decide) (by decide)

/-- A candidate line that structurally matches the grammar although its
`lenIdx` token `1.2.3` contains two dots. -/
def multiDotLn : List Char :=
  ("[HandGestureDebug] V手势 ✓ lenIdx:1.2.3 lenMid:0.12 lenRing:0.09 lenLit:0.08 gapIdxMid:0.02 gapThumbIdx:0.01 ratio idx/mid:0.83 ring/mid:0.75 lit/mid:0.66 score V/OK/Palm/Fist/Idx = 5/1/0/-1/2").data

set_option maxRecDepth 100000 in
/-- **C10.** The numeric token class `[\d.]+` admits `1.2.3`: the line
matches the full grammar with that capture, `float()` raises on it, and
the uncaught exception aborts the whole run at that line — even though
a following line is well-formed — instead of the line being counted and
reported as a parse failure.  Both parsers abort identically. -/
theorem multi_dot_token_aborts_run :
    (matchLine multiDotLn).map (fun c => c.lenIdx) = some (("1.2.3").data) ∧
    pyFloat (("1.2.3").data) = none ∧
    parse_log_file [multiDotLn, goodLn] = Except.error (ParseErr.convErr 1) ∧
    smart_parse_log [multiDotLn, goodLn] = Except.error (ParseErr.convErr 1) := by
  decide

/-! ### C3: threshold recommendations -/

/-- The recommendation stage applied to the diagnosed issues, as
`run()` wires the two stages together for a detected dominant
gesture. -/
def pipelineRecs (g : Gesture) (xs : List DSample) : List Recommendation :=
  generate_recommendations (Dominant.gesture g) xs
    (diagnose_issues (Dominant.gesture g) xs)

/-- The correct subset of a distance group: its samples with
`is_correct == True`. -/
def correctSub (g : Gesture) (xs : List DSample) (G : Group) : List DSample :=
  (xs.filter (fun x => x.scale_group = G)).filter
    (fun x => isCorrectD (Dominant.gesture g) x.pred)

theorem mem_recs_foldr (d : Dominant) (xs : List DSample) (issues : List Issue)
    (r : Recommendation) :
    r ∈ issues.foldr (fun i acc => recs_for_issue d xs i ++ acc) [] ↔
      ∃ i ∈ issues, r ∈ recs_for_issue d xs i := by
  induction issues with
  | nil => simp
  | cons a as ih => simp [List.foldr_cons, List.mem_append, ih]

/-- Every recommendation produced for a single issue either carries no
distance group, or carries the far or mid group together with a
non-empty correct subset of that group. -/
theorem recs_for_issue_shape (d : Dominant) (xs : List DSample) (i : Issue)
    (r : Recommendation) (hr : r ∈ recs_for_issue d xs i) :
    r.distance_group = none ∨
    (∃ G, (G = Group.far ∨ G = Group.mid) ∧ r.distance_group = some G ∧
      (xs.filter (fun x => x.scale_group = G)).filter
        (fun x => isCorrectD d x.pred) ≠ []) := by
  unfold recs_for_issue at hr
  rcases hk : i.kind with _ | _ | G | f
  · rw [hk] at hr; simp at hr
  · rw [hk] at hr
    simp only [List.mem_singleton] at hr
    subst hr
    exact Or.inl rfl
  · rw [hk] at hr
    cases G with
    | far =>
        simp only at hr
        split_ifs at hr with hc
        · simp at hr
        · simp only [List.mem_singleton] at hr
          subst hr
          refine Or.inr ⟨Group.far, Or.inl rfl, rfl, ?_⟩
          intro hnil
          exact hc (by rw [hnil]; rfl)
    | mid =>
        simp only at hr
        split_ifs at hr with hc
        · simp at hr
        · simp only [List.mem_singleton] at hr
          subst hr
          refine Or.inr ⟨Group.mid, Or.inr rfl, rfl, ?_⟩
          intro hnil
          exact hc (by rw [hnil]; rfl)
    | near => simp at hr
  · rw [hk] at hr; simp at hr

/-- **C3 (amended).** Threshold recommendations are generated only for
the far and mid groups.  For a dominant gesture g: no recommendation
ever names the near group; a low-group-accuracy issue for far or mid
whose correct subset is non-empty yields the threshold recommendation
computed from that subset's quantiles; when the correct subset is
empty, no recommendation names that group. -/
theorem threshold_rec_far_mid (g : Gesture) (xs : List DSample) :
    (∀ r ∈ pipelineRecs g xs, r.distance_group ≠ some Group.near) ∧
    (∀ G, (G = Group.far ∨ G = Group.mid) →
      ∀ i ∈ diagnose_issues (Dominant.gesture g) xs,
        i.kind = IssueKind.lowGroup G →
          (correctSub g xs G ≠ [] →
            generate_threshold_recommendation g (correctSub g xs G) G ∈
              pipelineRecs g xs) ∧
          (correctSub g xs G = [] →
            ∀ r ∈ pipelineRecs g xs, r.distance_group ≠ some G)) := by
  have hpipe : pipelineRecs g xs =
      (if ((diagnose_issues (Dominant.gesture g) xs).foldr
            (fun i acc => recs_for_issue (Dominant.gesture g) xs i ++ acc)
            []).length = 0 ∧
          0 < xs.length ∧ 17 / 20 < accuracy (Dominant.gesture g) xs then
        ((diagnose_issues (Dominant.gesture g) xs).foldr
            (fun i acc => recs_for_issue (Dominant.gesture g) xs i ++ acc) []) ++
          [⟨Priority.low, RecCategory.perfOpt, none, none, []⟩]
      else
        (diagnose_issues (Dominant.gesture g) xs).foldr
          (fun i acc => recs_for_issue (Dominant.gesture g) xs i ++ acc) []) := rfl
  have hsub : ∀ r, r ∈ (diagnose_issues (Dominant.gesture g) xs).foldr
      (fun i acc => recs_for_issue (Dominant.gesture g) xs i ++ acc) [] →
      r ∈ pipelineRecs g xs := by
    intro r hr
    rw [hpipe]
    split_ifs with hcnd
    · exact List.mem_append_left _ hr
    · exact hr
  have hsup : ∀ r, r ∈ pipelineRecs g xs →
      r ∈ (diagnose_issues (Dominant.gesture g) xs).foldr
        (fun i acc => recs_for_issue (Dominant.gesture g) xs i ++ acc) [] ∨
      r = ⟨Priority.low, RecCategory.perfOpt, none, none, []⟩ := by
    intro r hr
    rw [hpipe] at hr
    split_ifs at hr with hcnd
    · rcases List.mem_append.mp hr with h1 | h2
      · exact Or.inl h1
      · exact Or.inr (List.mem_singleton.mp h2)
    · exact Or.inl hr
  have hshape : ∀ r, r ∈ pipelineRecs g xs →
      r.distance_group = none ∨
      (∃ G, (G = Group.far ∨ G = Group.mid) ∧ r.distance_group = some G ∧
        correctSub g xs G ≠ []) := by
    intro r hr
    rcases hsup r hr with h1 | h2
    · obtain ⟨i, _hi, hri⟩ := (mem_recs_foldr _ _ _ _).mp h1
      exact recs_for_issue_shape _ _ _ _ hri
    · rw [h2]
      exact Or.inl rfl
  constructor
  · intro r hr hnear
    rcases hshape r hr with h1 | ⟨G, hG, hg2, _⟩
    · rw [h1] at hnear; cases hnear
    · rw [hg2] at hnear
      rcases hG with rfl | rfl <;> cases hnear
  · intro G hG i hi hk
    constructor
    · intro hne
      apply hsub
      refine (mem_recs_foldr _ _ _ _).mpr ⟨i, hi, ?_⟩
      unfold recs_for_issue
      rw [hk]
      rcases hG with rfl | rfl
      · simp only
        split_ifs with hc
        · exact absurd (List.length_eq_zero.mp hc) hne
        · exact List.mem_singleton.mpr rfl
      · simp only
        split_ifs with hc
        · exact absurd (List.length_eq_zero.mp hc) hne
        · exact List.mem_singleton.mpr rfl
    · intro hemp r hr hGr
      rcases hshape r hr with h1 | ⟨H, _hH, hg2, hne2⟩
      · rw [h1] at hGr; cases hGr
      · rw [hg2] at hGr
        have hHG : H = G := Option.some.inj hGr
        rw [hHG] at hne2
        exact hne2 hemp

/-- A 21-sample derived batch, dominant gesture V: the far group has 8
correct samples, the mid group 6, and the near group 7 samples of which
2 are correct, so only the near group fails its accuracy check. -/
def cexXs : List DSample :=
  List.replicate 8 (dsm Group.far Gesture.V) ++
  List.replicate 6 (dsm Group.mid Gesture.V) ++
  (List.replicate 2 (dsm Group.near Gesture.V) ++
    List.replicate 5 (dsm Group.near Gesture.OK))

set_option maxRecDepth 100000 in
/-- **C3 counterexample.** The batch raises exactly one
low-group-accuracy issue, for the near group, and that group's correct
subset is non-empty — yet no recommendation at all is generated: the
source has branches only for far-group and mid-group issues, so a
near-group issue never yields the claimed threshold recommendation. -/
theorem threshold_rec_near_gap_cex :
    (diagnose_issues (Dominant.gesture Gesture.V) cexXs).countP
        (fun i => i.kind = IssueKind.lowGroup Group.near) = 1 ∧
    correctSub Gesture.V cexXs Group.near ≠ [] ∧
    pipelineRecs Gesture.V cexXs = [] := by decide

/-- A 7-sample far-group batch with 2 correct samples: the far group
fails its accuracy check and has a non-empty correct subset. -/
def wXs : List DSample :=
  List.replicate 2 (dsm Group.far Gesture.V) ++
  List.replicate 5 (dsm Group.far Gesture.OK)

set_option maxRecDepth 100000 in
/-- Witness for **C3 (amended)**: the far-group issue with a non-empty
correct subset yields the quantile-based threshold recommendation. -/
theorem threshold_rec_far_mid_witness :
    generate_threshold_recommendation Gesture.V
        (correctSub Gesture.V wXs Group.far) Group.far ∈
      pipelineRecs Gesture.V wXs := by
  have h := threshold_rec_far_mid Gesture.V wXs
  have h2 := h.2 Group.far (Or.inl rfl)
    ⟨IssueKind.lowGroup Group.far, Severity.high,
      some (accuracy (Dominant.gesture Gesture.V)
        (wXs.filter (fun x => x.scale_group = Group.far))), none, none⟩
    (by decide) rfl
  exact h2.1 (by decide)

end VisionDemo
